import Mathlib

/-!
Verification of the VEX statement-matching engine
(`pkg/vex/product_functions.go` of the go-vex repository).

The Go source is shallowly embedded below.  Go maps are modelled as
association lists, Go slices as lists, `*time.Time` as `Option Int`
(an instant is an integer tick count; only ordering of instants matters
to the matching core).  The external purl parser (`packageurl-go`) and
the repository's `SortStatements` helper are not part of the matching
source file; they are modelled from the specification, as marked on
their doc comments.
-/

namespace GoVex

/-! ## Basic identifier types (from the go-vex data model) -/

abbrev IdentifierType := String

abbrev Algorithm := String

abbrev Hash := String

abbrev VulnerabilityID := String

/-- Go constant `PURL` of type `IdentifierType`. -/
def PURL : IdentifierType := "purl"

/-- Go constant `SHA1` of type `Algorithm`. -/
def SHA1 : Algorithm := "sha-1"

/-! ## Package URL model

`packageurl.PackageURL` from the external `packageurl-go` collaborator.
The Go field `Type` is spelled `Typ` here because `Type` is a Lean
keyword.  `Qualifiers` is the parsed key/value list (Go keeps a slice of
`Qualifier` structs; `Qualifiers.Map()` turns it into a `map[string]string`
with later entries overwriting earlier ones, modelled by `qlook` below). -/

structure PackageURL where
  Typ : String
  Namespace : String
  Name : String
  Version : String
  Qualifiers : List (String × String)
deriving DecidableEq, Repr

/-- Models `strings.HasPrefix s "pkg:"`, the only prefix test the matching
source performs (byte-exact comparison on UTF-8 data). -/
def startsWithPkg (s : String) : Bool :=
  List.isPrefixOf "pkg:".data s.data

/-- Splits a character list at the first occurrence of `c`, returning the
part before and the part after; `none` when `c` does not occur. -/
def splitOnFirst (c : Char) : List Char → Option (List Char × List Char)
  | [] => none
  | x :: xs =>
    if x = c then some ([], xs)
    else
      match splitOnFirst c xs with
      | some (a, b) => some (x :: a, b)
      | none => none

/-- Splits a character list into the segments delimited by `c`
(an empty input yields one empty segment, like Go's `strings.Split`). -/
def splitAll (c : Char) : List Char → List (List Char)
  | [] => [[]]
  | x :: xs =>
    let r := splitAll c xs
    if x = c then [] :: r
    else
      match r with
      | [] => [[x]]
      | a :: rest => (x :: a) :: rest

/-- Joins path segments with `/` (inverse of `splitAll '/'` on the
namespace part of a purl). -/
def joinSegs : List (List Char) → List Char
  | [] => []
  | [a] => a
  | a :: rest => a ++ '/' :: joinSegs rest

/-- Parses the `key=value` qualifier pieces of a purl; fails when a piece
carries no `=`. -/
def parseQualifiers : List (List Char) → Option (List (String × String))
  | [] => some []
  | p :: ps =>
    match splitOnFirst '=' p with
    | none => none
    | some (k, v) =>
      match parseQualifiers ps with
      | none => none
      | some rest => some ((String.mk k, String.mk v) :: rest)

/-- Modelled from the spec: the external package-url parser
(`packageurl.FromString` of `packageurl-go`, a collaborator the
specification leaves out of scope).  Per §6 it takes a string of the wire
syntax `scheme:type/namespace/name@version?qualifiers` and returns
type/namespace/name/version/qualifier-map, or an error (here `none`) for
malformed input: a missing `pkg:` scheme, an empty type or name, or a
qualifier piece without `=`. -/
def FromString (s : String) : Option PackageURL := do
  if startsWithPkg s then
    let rest := s.data.drop 4
    let (beforeQual, qualPart) :=
      match splitOnFirst '?' rest with
      | some (a, b) => (a, some b)
      | none => (rest, none)
    let (beforeVer, version) :=
      match splitOnFirst '@' beforeQual with
      | some (a, b) => (a, String.mk b)
      | none => (beforeQual, "")
    match splitAll '/' beforeVer with
    | [] => none
    | [_] => none
    | ty :: segs =>
      if ty.isEmpty then none
      else
        let name := segs.getLastD []
        if name.isEmpty then none
        else
          let ns := String.mk (joinSegs segs.dropLast)
          let quals ←
            match qualPart with
            | none => some []
            | some q => parseQualifiers (splitAll '&' q)
          pure { Typ := String.mk ty, Namespace := ns, Name := String.mk name,
                 Version := version, Qualifiers := quals }
  else
    none

/-- Lookup in the qualifier map built by Go's `Qualifiers.Map()`: the map
holds, for each key, the value of its last occurrence in the qualifier
list (later map insertions overwrite earlier ones). -/
def qlook : List (String × String) → String → Option String
  | [], _ => none
  | kv :: rest, k =>
    match qlook rest k with
    | some v => some v
    | none => if kv.1 == k then some kv.2 else none

/-- Core of `PurlMatches` (`product_functions.go` lines 125–154): the
comparison that runs after both purls parsed.  The Go qualifier loop
ranges over the map `p1q` checking each entry against `p2q`; here we
range over the entries of the qualifier list and compare the map views
through `qlook`, which checks exactly the same key/value conditions. -/
def purlMatchesParsed (p1 p2 : PackageURL) : Bool :=
  if p1.Typ != p2.Typ then false
  else if p1.Namespace != p2.Namespace then false
  else if p1.Name != p2.Name then false
  else if p1.Version != "" && p2.Version == "" then false
  else if p1.Version != p2.Version && p1.Version != "" && p2.Version != "" then false
  else p1.Qualifiers.all fun kv => qlook p2.Qualifiers kv.1 == qlook p1.Qualifiers kv.1

/-- `PurlMatches` (`product_functions.go` lines 115–155): parse both
strings; either parse failure yields `false`, otherwise compare the
parsed purls. -/
def PurlMatches (purl1 purl2 : String) : Bool :=
  match FromString purl1 with
  | none => false
  | some p1 =>
    match FromString purl2 with
    | none => false
    | some p2 => purlMatchesParsed p1 p2

/-! ## VEX data model

From the go-vex data model (the struct declarations live outside the
matching source file; their shapes are fixed by the fields the matching
code and its tests read: `ID`, `Identifiers`, `Hashes`, `Subcomponents`,
`Name`, `Aliases`, `Products`, `Statements`, `Timestamp`).  Go maps
become association lists and Go slices become lists. -/

structure Component where
  ID : String := ""
  Identifiers : List (IdentifierType × String) := []
  Hashes : List (Algorithm × Hash) := []
deriving DecidableEq, Repr

structure Subcomponent where
  Component : Component
deriving DecidableEq, Repr

structure Product where
  Component : Component
  Subcomponents : List Subcomponent := []
deriving DecidableEq, Repr

structure Vulnerability where
  ID : String := ""
  Name : VulnerabilityID := ""
  Aliases : List VulnerabilityID := []
deriving DecidableEq, Repr

/-- One VEX statement; `Timestamp` is the Go `*time.Time` field read by
the temporal sort (instants are integer ticks, `none` is a nil pointer). -/
structure Statement where
  Vulnerability : Vulnerability
  Products : List Product := []
  Timestamp : Option Int := none
deriving DecidableEq, Repr

structure Metadata where
  Timestamp : Option Int := none
deriving DecidableEq, Repr

structure VEX where
  Metadata : Metadata := {}
  Statements : List Statement := []
deriving DecidableEq, Repr

/-! ## Matching functions (`product_functions.go`) -/

/-- `Component.Matches` (lines 29–60): exact non-empty `ID` equality,
else purl comparison when `ID` is purl-prefixed; then the identifier
map (exact value match, or purl comparison for purl-typed entries when
the query is purl-prefixed); then exact hash-value match. -/
def Component.Matches (c : Component) (identifier : String) : Bool :=
  if c.ID == identifier && c.ID != "" then true
  else if startsWithPkg c.ID && PurlMatches c.ID identifier then true
  else if c.Identifiers.any (fun ti =>
      ti.2 == identifier ||
        (ti.1 == PURL && startsWithPkg identifier && PurlMatches ti.2 identifier)) then
    true
  else
    c.Hashes.any fun ah => ah.2 == identifier

/-- `Product.Matches` (lines 10–27): the primary component must match;
with no declared subcomponents that alone suffices, otherwise some
subcomponent must match the sub-identifier. -/
def Product.Matches (p : Product) (identifier subIdentifier : String) : Bool :=
  if !(p.Component.Matches identifier) then false
  else if p.Subcomponents.isEmpty then true
  else p.Subcomponents.any fun s => s.Component.Matches subIdentifier

/-- `Vulnerability.Matches` (lines 62–77): the query may equal the `ID`,
the `Name`, or any alias; no non-empty guards anywhere. -/
def Vulnerability.Matches (v : Vulnerability) (identifier : String) : Bool :=
  if v.ID == identifier then true
  else if v.Name == identifier then true
  else v.Aliases.any fun id => id == identifier

/-- `Statement.Matches` (lines 81–100): the vulnerability must match;
then per product, either the subcomponent list is empty and the product
matches with an empty sub-identifier, or some supplied sub-identifier
makes the product match. -/
def Statement.Matches (s : Statement) (vuln product : String)
    (subcomponents : List String) : Bool :=
  if !(s.Vulnerability.Matches vuln) then false
  else
    s.Products.any fun p =>
      (if subcomponents.isEmpty then p.Matches product "" else false) ||
        subcomponents.any fun sc => p.Matches product sc

/-- Effective instant of a statement for the temporal sort: its own
timestamp when present, else the fallback `t`. -/
def effTime (t : Int) (s : Statement) : Int :=
  s.Timestamp.getD t

/-- Modelled from the spec: `SortStatements`, the repository's temporal
sorting helper, lives outside the matching source file.  Per §4.6 each
statement's effective time is its own timestamp if present, else the
caller-supplied fallback instant `t`; statements are ordered ascending
by effective time with a stable sort (ties keep their relative order;
insertion sort is stable). -/
def SortStatements (statements : List Statement) (t : Int) : List Statement :=
  statements.insertionSort fun a b => effTime t a ≤ effTime t b

/-- `VEX.Matches` (lines 160–177): the fallback instant is the document
timestamp when present (the zero instant otherwise); the Go loop walks
the statements from the last index down to 0 appending each match, which
collects exactly the matching statements of the reversed statement list;
the collected list is then sorted. -/
def VEX.Matches (vexDoc : VEX) (vulnID product : String)
    (subcomponents : List String) : List Statement :=
  let t : Int :=
    match vexDoc.Metadata.Timestamp with
    | some ts => ts
    | none => 0
  SortStatements
    (vexDoc.Statements.reverse.filter fun s => s.Matches vulnID product subcomponents) t

/-! ## Helper lemmas on the qualifier map -/

theorem qlook_isSome_of_mem {q : List (String × String)} {kv : String × String}
    (h : kv ∈ q) : ∃ w, qlook q kv.1 = some w := by
  induction q with
  | nil => cases h
  | cons a rest ih =>
    unfold qlook
    rcases List.mem_cons.mp h with h | h
    · subst h
      cases hr : qlook rest kv.1 with
      | some v => exact ⟨v, rfl⟩
      | none => exact ⟨kv.2, by simp⟩
    · obtain ⟨w, hw⟩ := ih h
      rw [hw]
      exact ⟨w, rfl⟩

theorem qlook_mem_keys {q : List (String × String)} {k v : String}
    (h : qlook q k = some v) : ∃ kv ∈ q, kv.1 = k := by
  induction q with
  | nil => simp [qlook] at h
  | cons a rest ih =>
    unfold qlook at h
    cases hr : qlook rest k with
    | some w =>
      rw [hr] at h
      obtain ⟨kv, hmem, hk⟩ := ih (hr.trans (by injection h with h; rw [h]))
      exact ⟨kv, List.mem_cons_of_mem _ hmem, hk⟩
    | none =>
      rw [hr] at h
      by_cases hak : a.1 == k
      · exact ⟨a, List.mem_cons_self _ _, beq_iff_eq.mp hak⟩
      · simp [hak] at h

/-- The Go qualifier loop over the map of `q1` checking against the map of
`q2` succeeds exactly when every key bound in `q1`'s map is bound to the
same value in `q2`'s map. -/
theorem qualAll_iff (q1 q2 : List (String × String)) :
    (q1.all fun kv => qlook q2 kv.1 == qlook q1 kv.1) = true ↔
      ∀ k v, qlook q1 k = some v → qlook q2 k = some v := by
  rw [List.all_eq_true]
  constructor
  · intro hall k v hv
    obtain ⟨kv, hmem, hk⟩ := qlook_mem_keys hv
    have heq := beq_iff_eq.mp (hall kv hmem)
    rw [hk] at heq
    rw [heq, hv]
  · intro h kv hmem
    obtain ⟨w, hw⟩ := qlook_isSome_of_mem hmem
    rw [beq_iff_eq, hw, h kv.1 w hw]

/-- The if-chain of `purlMatchesParsed` written as one boolean conjunction
(each early `return false` of the Go code is one conjunct). -/
theorem purlMatchesParsed_eq_conj (p1 p2 : PackageURL) :
    purlMatchesParsed p1 p2 =
      (!(p1.Typ != p2.Typ) && !(p1.Namespace != p2.Namespace) && !(p1.Name != p2.Name) &&
        !(p1.Version != "" && p2.Version == "") &&
        !(p1.Version != p2.Version && p1.Version != "" && p2.Version != "") &&
        (p1.Qualifiers.all fun kv => qlook p2.Qualifiers kv.1 == qlook p1.Qualifiers kv.1)) := by
  unfold purlMatchesParsed
  cases h1 : (p1.Typ != p2.Typ) <;>
    cases h2 : (p1.Namespace != p2.Namespace) <;>
      cases h3 : (p1.Name != p2.Name) <;>
        cases h4 : (p1.Version != "" && p2.Version == "") <;>
          cases h5 : (p1.Version != p2.Version && p1.Version != "" && p2.Version != "") <;>
            simp [h1, h2, h3, h4, h5]

/-! ## Sanity checks: the test vectors of `product_functions_test.go` -/

example : PurlMatches "pkg:apk/wolfi/curl@8.1.2-r0?arch=x86_64"
    "pkg:apk/wolfi/curl@8.1.2-r0?arch=x86_64" = true := by decide

example : PurlMatches "pkg:apk/wolfi/curl@8.1.2-r0?arch=x86_64"
    "pkg:rpm/wolfi/curl@8.1.2-r0?arch=x86_64" = false := by decide

example : PurlMatches "pkg:apk/wolfi/curl@8.1.2-r0?arch=x86_64"
    "pkg:apk/alpine/curl@8.1.2-r0?arch=x86_64" = false := by decide

example : PurlMatches "pkg:apk/wolfi/curl@8.1.2-r0"
    "pkg:apk/wolfi/curl@8.1.2-r0?arch=x86_64" = true := by decide

example : PurlMatches "pkg:apk/wolfi/curl@8.1.2-r0?arch=x86_64"
    "pkg:apk/wolfi/curl@8.1.2-r0" = false := by decide

example : PurlMatches "pkg:oci/curl"
    "pkg:oci/curl@sha256:47fed8868b46b060efb8699dc40e981a0c785650223e03602d8c4493fc75b68c" =
    true := by decide

example : PurlMatches "pkg:apk/wolfi/curl@8.1.2-r0?arch=x86_64"
    "pkg:apk/wolfi/curl@8.1.2-r0?arch=x86_64&os=linux" = true := by decide

example : (Component.mk "" [("customIdentifier", "madeup-2023-12345")] []).Matches
    "madeup-2023-12345" = true := by decide

example : (Component.mk "" [(PURL, "pkg:oci/curl")] []).Matches
    "pkg:oci/curl@sha256:47fed8868b46b060efb8699dc40e981a0c785650223e03602d8c4493fc75b68c" =
    true := by decide

example : (Component.mk "" [] [(SHA1, "77d86e9752cb933569dfa1f693ee4338e65b28b4")]).Matches
    "77d86e9752cb933569dfa1f693ee4338e65b28b4" = true := by decide

example : (Component.mk "" [] [(SHA1, "b5cc41d90d7ccc195c4a24ceb32656942c9854ea")]).Matches
    "77d86e9752cb933569dfa1f693ee4338e65b28b4" = false := by decide

example : (Product.mk (Component.mk "pkg:oci/alpine@sha256%3A124c" [] [])
      [Subcomponent.mk (Component.mk "pkg:apk/alpine/libcrypto3@3.0.8-r3" [] [])]).Matches
    "pkg:oci/alpine@sha256%3A124c" "pkg:apk/alpine/libcrypto3@3.0.8-r3" = true := by decide

example : (Product.mk (Component.mk "pkg:oci/alpine@sha256%3A124c" [] [])
      [Subcomponent.mk (Component.mk "pkg:apk/alpine/libcrypto3@3.0.8-r3" [] [])]).Matches
    "pkg:oci/alpine@sha256%3A124c" "" = false := by decide

example : (Product.mk (Component.mk "pkg:oci/alpine@sha256%3A124c" [] []) []).Matches
    "pkg:oci/alpine@sha256%3A124c" "pkg:apk/alpine/libcrypto3@3.0.8-r3" = true := by decide

/-! ## Shared lemmas about the matchers -/

/-- The if-chain of `Component.Matches` as one boolean disjunction: each
guard only skips a later check when the result is already `true`, so the
early-return chain has the same value as the disjunction of its four
tests. -/
theorem Component.Matches_eq_or (c : Component) (identifier : String) :
    c.Matches identifier =
      ((c.ID == identifier && c.ID != "") ||
        (startsWithPkg c.ID && PurlMatches c.ID identifier) ||
        (c.Identifiers.any fun ti =>
          ti.2 == identifier ||
            (ti.1 == PURL && startsWithPkg identifier && PurlMatches ti.2 identifier)) ||
        c.Hashes.any fun ah => ah.2 == identifier) := by
  unfold Component.Matches
  cases h1 : (c.ID == identifier && c.ID != "") <;>
    cases h2 : (startsWithPkg c.ID && PurlMatches c.ID identifier) <;>
      cases h3 : (c.Identifiers.any fun ti =>
          ti.2 == identifier ||
            (ti.1 == PURL && startsWithPkg identifier && PurlMatches ti.2 identifier)) <;>
        simp [h1, h2, h3]

/-- Propositional characterization of the parsed-purl comparison. -/
theorem purlMatchesParsed_iff (p1 p2 : PackageURL) :
    purlMatchesParsed p1 p2 = true ↔
      (p1.Typ = p2.Typ ∧ p1.Namespace = p2.Namespace ∧ p1.Name = p2.Name ∧
        ¬(p1.Version ≠ "" ∧ p2.Version = "") ∧
        ¬(p1.Version ≠ "" ∧ p2.Version ≠ "" ∧ p1.Version ≠ p2.Version) ∧
        ∀ k v, qlook p1.Qualifiers k = some v → qlook p2.Qualifiers k = some v) := by
  rw [purlMatchesParsed_eq_conj]
  simp only [Bool.and_eq_true, Bool.not_eq_true', Bool.and_eq_false_iff,
    bne_eq_false_iff_eq, bne_iff_ne, beq_iff_eq, beq_eq_false_iff_ne, ne_eq,
    qualAll_iff]
  tauto

/-- The parsed-purl comparison is reflexive. -/
theorem purlMatchesParsed_refl (p : PackageURL) : purlMatchesParsed p p = true := by
  rw [purlMatchesParsed_eq_conj]
  cases hv : (p.Version == "") <;>
    simp_all [List.all_eq_true, bne_self_eq_false, beq_iff_eq]

/-! ## Claim theorems -/

/-- Claim C1, as amended: for every product, `Product.Matches` succeeds
iff the primary component matches the product identifier and either the
product declares zero subcomponents (in which case any sub-identifier,
empty or not, is accepted) or at least one subcomponent's component
matches the sub-identifier. -/
theorem productMatches_characterization (p : Product) (identifier subIdentifier : String) :
    p.Matches identifier subIdentifier = true ↔
      (p.Component.Matches identifier = true ∧
        (p.Subcomponents = [] ∨
          ∃ s ∈ p.Subcomponents, s.Component.Matches subIdentifier = true)) := by
  unfold Product.Matches
  cases h : p.Component.Matches identifier <;>
    simp [h, List.isEmpty_iff, List.any_eq_true]

/-- Claim C1, counterexample to the claim as stated: a product with zero
declared subcomponents and a matching primary component succeeds on the
non-empty sub-identifier query `"libfoo"`, although no subcomponent
matches it — the claim says any non-empty sub-identifier query on a
zero-subcomponent product must fail. -/
theorem productMatches_zero_subcomponents_counterexample :
    (Product.mk (Component.mk "app" [] []) []).Matches "app" "libfoo" = true ∧
      (Product.mk (Component.mk "app" [] []) []).Subcomponents = [] ∧
      ("libfoo" : String) ≠ "" :=
  ⟨by decide, rfl, by decide⟩

/-- Claim C2: for purl strings that both parse, `PurlMatches` is true iff
type, namespace and name coincide, the version of the general purl is not
non-empty while the specific one's is empty, the versions do not both be
non-empty and differ, and every qualifier binding of the general purl is
bound identically on the specific purl (extra qualifiers on the specific
purl are allowed). -/
theorem purlMatches_characterization (g s : String) (p1 p2 : PackageURL)
    (hg : FromString g = some p1) (hs : FromString s = some p2) :
    PurlMatches g s = true ↔
      (p1.Typ = p2.Typ ∧ p1.Namespace = p2.Namespace ∧ p1.Name = p2.Name ∧
        ¬(p1.Version ≠ "" ∧ p2.Version = "") ∧
        ¬(p1.Version ≠ "" ∧ p2.Version ≠ "" ∧ p1.Version ≠ p2.Version) ∧
        ∀ k v, qlook p1.Qualifiers k = some v → qlook p2.Qualifiers k = some v) := by
  unfold PurlMatches
  rw [hg, hs]
  exact purlMatchesParsed_iff p1 p2

/-- Claim C2, witness at a concrete pair of purls. -/
theorem purlMatches_characterization_witness :
    FromString "pkg:oci/curl" = some ⟨"oci", "", "curl", "", []⟩ ∧
      FromString "pkg:oci/curl@1.0" = some ⟨"oci", "", "curl", "1.0", []⟩ ∧
      (PurlMatches "pkg:oci/curl" "pkg:oci/curl@1.0" = true ↔
        ("oci" = "oci" ∧ "" = "" ∧ "curl" = "curl" ∧
          ¬(("" : String) ≠ "" ∧ ("1.0" : String) = "") ∧
          ¬(("" : String) ≠ "" ∧ ("1.0" : String) ≠ "" ∧ ("" : String) ≠ "1.0") ∧
          ∀ k v, qlook [] k = some v → qlook [] k = some v)) :=
  ⟨by decide, by decide,
    purlMatches_characterization "pkg:oci/curl" "pkg:oci/curl@1.0"
      ⟨"oci", "", "curl", "", []⟩ ⟨"oci", "", "curl", "1.0", []⟩ (by decide) (by decide)⟩

/-- Claim C3: a parse failure on either operand makes `PurlMatches` return
the boolean `false`; by construction the function always returns a
boolean, so no error is ever propagated. -/
theorem purlMatches_parse_failure_false (s1 s2 : String)
    (h : FromString s1 = none ∨ FromString s2 = none) :
    PurlMatches s1 s2 = false := by
  unfold PurlMatches
  rcases h with h | h
  · rw [h]
  · cases hh : FromString s1 <;> simp [hh, h]

/-- Claim C3, witness on a malformed purl operand. -/
theorem purlMatches_parse_failure_false_witness :
    FromString "notapurl" = none ∧ PurlMatches "notapurl" "pkg:oci/curl" = false :=
  ⟨by decide, purlMatches_parse_failure_false "notapurl" "pkg:oci/curl" (Or.inl (by decide))⟩

/-- Claim C4: `PurlMatches` is reflexive on every string that parses as a
package URL. -/
theorem purlMatches_refl (p : String) (pp : PackageURL) (h : FromString p = some pp) :
    PurlMatches p p = true := by
  unfold PurlMatches
  rw [h]
  exact purlMatchesParsed_refl pp

/-- Claim C4, witness on a fully populated purl. -/
theorem purlMatches_refl_witness :
    FromString "pkg:apk/wolfi/curl@8.1.2-r0?arch=x86_64" =
        some ⟨"apk", "wolfi", "curl", "8.1.2-r0", [("arch", "x86_64")]⟩ ∧
      PurlMatches "pkg:apk/wolfi/curl@8.1.2-r0?arch=x86_64"
        "pkg:apk/wolfi/curl@8.1.2-r0?arch=x86_64" = true :=
  ⟨by decide,
    purlMatches_refl "pkg:apk/wolfi/curl@8.1.2-r0?arch=x86_64"
      ⟨"apk", "wolfi", "curl", "8.1.2-r0", [("arch", "x86_64")]⟩ (by decide)⟩

/-- Claim C5: `Component.Matches` succeeds iff the identifier equals the
non-empty `ID`, or the `ID` is purl-prefixed and purl-matches the
identifier as the general pattern, or some identifier-map entry equals
the identifier exactly or is purl-typed with a purl-prefixed identifier
that purl-matches, or some hash value equals the identifier; all
comparisons are byte-exact string comparisons. -/
theorem componentMatches_characterization (c : Component) (identifier : String) :
    c.Matches identifier = true ↔
      ((c.ID = identifier ∧ c.ID ≠ "") ∨
        (startsWithPkg c.ID = true ∧ PurlMatches c.ID identifier = true) ∨
        (∃ ti ∈ c.Identifiers, ti.2 = identifier ∨
          (ti.1 = PURL ∧ startsWithPkg identifier = true ∧
            PurlMatches ti.2 identifier = true)) ∨
        (∃ ah ∈ c.Hashes, ah.2 = identifier)) := by
  rw [Component.Matches_eq_or]
  simp only [Bool.or_eq_true, Bool.and_eq_true, beq_iff_eq, bne_iff_ne,
    List.any_eq_true, and_assoc, or_assoc, ne_eq]

/-- Claim C6: `Statement.Matches` is false whenever the vulnerability does
not match; otherwise it is true iff some product matches with the empty
sub-identifier when the supplied subcomponent list is empty, or some
product matches some candidate of the supplied list. -/
theorem statementMatches_characterization (s : Statement) (vuln product : String)
    (subs : List String) :
    s.Matches vuln product subs = true ↔
      (s.Vulnerability.Matches vuln = true ∧
        ((subs = [] ∧ ∃ p ∈ s.Products, p.Matches product "" = true) ∨
          ∃ p ∈ s.Products, ∃ c ∈ subs, p.Matches product c = true)) := by
  unfold Statement.Matches
  cases h : s.Vulnerability.Matches vuln <;>
    cases subs <;>
      simp [h, List.any_eq_true]

/-- Claim C7: `VEX.Matches` returns a permutation of the statements
collected while scanning the document in reverse declaration order and
keeping exactly those that satisfy the statement matcher (so its members
are exactly the matching statements of the document), and the returned
list is sorted ascending by effective time, the temporal ordering of the
specification. -/
theorem vexMatches_collects_and_sorts (doc : VEX) (vulnID product : String)
    (subs : List String) :
    (∀ s, s ∈ doc.Matches vulnID product subs ↔
        (s ∈ doc.Statements ∧ s.Matches vulnID product subs = true)) ∧
      (doc.Matches vulnID product subs).Perm
        (doc.Statements.reverse.filter fun s => s.Matches vulnID product subs) ∧
      (doc.Matches vulnID product subs).Pairwise
        (fun a b => effTime (doc.Metadata.Timestamp.getD 0) a ≤
          effTime (doc.Metadata.Timestamp.getD 0) b) := by
  have hdef : doc.Matches vulnID product subs =
      SortStatements (doc.Statements.reverse.filter fun s => s.Matches vulnID product subs)
        (doc.Metadata.Timestamp.getD 0) := by
    cases h : doc.Metadata.Timestamp <;> simp [VEX.Matches, h]
  rw [hdef]
  unfold SortStatements
  haveI : IsTotal Statement
      (fun a b => effTime (doc.Metadata.Timestamp.getD 0) a ≤
        effTime (doc.Metadata.Timestamp.getD 0) b) := ⟨fun a b => le_total _ _⟩
  haveI : IsTrans Statement
      (fun a b => effTime (doc.Metadata.Timestamp.getD 0) a ≤
        effTime (doc.Metadata.Timestamp.getD 0) b) := ⟨fun a b c hab hbc => le_trans hab hbc⟩
  refine ⟨?_, List.perm_insertionSort _ _, List.sorted_insertionSort _ _⟩
  intro s
  rw [(List.perm_insertionSort _ _).mem_iff, List.mem_filter, List.mem_reverse]

/-- Claim C8: a document with an empty (Go `nil`) statement list yields
the empty match list; all matchers are total Lean functions translated
from the Go, so every well-typed input produces a boolean or a list. -/
theorem vexMatches_empty_document (doc : VEX) (vulnID product : String)
    (subs : List String) (h : doc.Statements = []) :
    doc.Matches vulnID product subs = [] := by
  cases ht : doc.Metadata.Timestamp <;>
    simp [VEX.Matches, SortStatements, h, ht]

/-- Claim C8, witness on the zero-value document. -/
theorem vexMatches_empty_document_witness :
    (VEX.mk {} []).Statements = [] ∧
      (VEX.mk {} []).Matches "CVE-2023-1255" "pkg:oci/alpine" [] = [] :=
  ⟨rfl, vexMatches_empty_document (VEX.mk {} []) "CVE-2023-1255" "pkg:oci/alpine" [] rfl⟩

/-- Claim C9: querying a statement with the empty subcomponent list gives
the same result as querying it with the one-element list holding the
empty string. -/
theorem statementMatches_nil_eq_empty_string (s : Statement) (vuln product : String) :
    s.Matches vuln product [] = s.Matches vuln product [""] := by
  unfold Statement.Matches
  cases h : s.Vulnerability.Matches vuln <;> simp [h]

/-- Claim C10: the vulnerability matcher applies no non-empty guard: any
vulnerability whose `ID`, `Name`, or some alias is the empty string
matches the empty-string query, while the component matcher rejects the
empty-string query on a zero-value component because its exact-`ID`
comparison requires a non-empty `ID`. -/
theorem vulnerabilityMatches_no_nonempty_guard (v : Vulnerability)
    (h : v.ID = "" ∨ v.Name = "" ∨ "" ∈ v.Aliases) :
    v.Matches "" = true ∧ (Component.mk "" [] []).Matches "" = false := by
  refine ⟨?_, by decide⟩
  unfold Vulnerability.Matches
  rcases h with h | h | h
  · simp [h]
  · simp [h]
  · cases h1 : (v.ID == "") <;> cases h2 : ((v.Name : String) == "") <;>
      simp_all [List.any_eq_true]

/-- Claim C10, witness: the zero-value vulnerability matches the
empty-string query. -/
theorem vulnerabilityMatches_no_nonempty_guard_witness :
    ((Vulnerability.mk "" "" []).ID = "" ∨ (Vulnerability.mk "" "" []).Name = "" ∨
        "" ∈ (Vulnerability.mk "" "" []).Aliases) ∧
      ((Vulnerability.mk "" "" []).Matches "" = true ∧
        (Component.mk "" [] []).Matches "" = false) :=
  ⟨Or.inl rfl, vulnerabilityMatches_no_nonempty_guard (Vulnerability.mk "" "" []) (Or.inl rfl)⟩

end GoVex
